import Mathlib

/-!
Verification development for the roiorbison repository.

The Python modules under `roiorbison/` are shallowly embedded below:
pure functions become Lean functions, the mutable attributes of each
object become explicit state records, queue traffic becomes lists, and
fallible code returns `Except`/`Option`.  lxml's pull parser is an
external library, so each inbound byte chunk is modelled together with
the parse events lxml yields after the chunk is fed.  The `poisonpill`
module is not part of the checked-in sources; per the specification it
exports one distinguished sentinel object (`POISON_PILL`) compared with
`is`, which is modelled as a dedicated constructor of the queue-item
types.
-/

namespace Roi

/-! ## Python semantics helpers -/

/-- Python exceptions relevant to the embedded code. -/
inductive PyExn where
  | typeError
  | keyError
deriving DecidableEq

/-- Calling an `async def` function in Python *without* `await` yields a
coroutine object; the function body does not run at the call site (and
never runs if the object is discarded or garbage collected). -/
inductive PyCoroutineObject (α : Type) where
  | coroutineObject
deriving DecidableEq

/-- Tuple unpacking `a, b = x` where `x` is a coroutine object raises
`TypeError` (`cannot unpack non-iterable coroutine object`). -/
def unpackPair {α β : Type} :
    PyCoroutineObject (α × β) → Except PyExn (α × β)
  | .coroutineObject => .error .typeError

/-! ## XML elements (lxml `Element`, abstracted to what the code reads) -/

/-- An XML element: the embedded code only inspects `.tag` and
`.get(name)` on attributes, so an element is a tag plus an attribute
association list. -/
structure Elem where
  tag : String
  attrs : List (String × String)
deriving DecidableEq

/-- `element.get(name)`: the attribute value, or `None` when absent. -/
def Elem.get (e : Elem) (name : String) : Option String :=
  e.attrs.lookup name

/-- Expected element names (roimachine.py lines 15-20). -/
def ROI_ROOT_NAME : String :=
  "\x7bhttp://www.pubtrans.com/ROI/3.0\x7dFromPubTransMessages"

def ROI_LAST_PROCESSED_NAME : String := "LastProcessedMessageRequest"

def ROI_SUBSCRIPTION_RESUME_RESPONSE_NAME : String :=
  "SubscriptionResumeResponse"

def ROI_SUBSCRIPTION_RESPONSE_NAME : String := "SubscriptionResponse"

def ROI_SUBSCRIPTION_ERROR_REPORT_NAME : String := "SubscriptionErrorReport"

def ROI_SUBSCRIPTION_ERROR_RESPONSE_NAME : String :=
  "SubscriptionErrorResponse"

/-! ## xmlparser.py -/

/-- An item on the inbound byte queue of `XMLParser`: the `POISON_PILL`
sentinel, or a chunk of bytes annotated with the start-element events
lxml's pull parser (`events=('start',)`) yields after the chunk is
fed. -/
inductive InItem where
  | POISON_PILL
  | chunk (bytes : String) (startEvents : List Elem)
deriving DecidableEq

/-- Result of `XMLParser._handle_root_start_tag` (xmlparser.py 49-72). -/
inductive RootStartResult where
  | gotPill
  | gotRoot (stream_start : String) (root_start_tag_name : String)
deriving DecidableEq

/-- Embeds `XMLParser._handle_root_start_tag` (xmlparser.py 49-72), the
body as it runs when awaited.  The loop reads the input queue: on the
sentinel it returns `(POISON_PILL, None)`; otherwise it accumulates the
received bytes into `stream_start`, feeds the pull parser, and on the
first start event records `element.tag` as `root_start_tag_name` and
returns `(stream_start, root_start_tag_name)`.  The tag is *not*
compared against `ROI_ROOT_NAME` or any other constant.  Source line 71
calls `self._copy_into_queues(element)` without `await`, so the copy
coroutine's body never runs and no element is put on either queue here.
`none` means the queue ran dry without sentinel or start event (the
coroutine would stay blocked on `get`). -/
def handle_root_start_tag : List InItem → String → Option RootStartResult
  | [], _ => none
  | InItem.POISON_PILL :: _, _ => some RootStartResult.gotPill
  | InItem.chunk bytes events :: rest, acc =>
      match events with
      | [] => handle_root_start_tag rest (acc ++ bytes)
      | e :: _ => some (RootStartResult.gotRoot (acc ++ bytes) e.tag)

/-- How a run of `XMLParser.keep_parsing` terminates. -/
inductive KPOutcome where
  | returnedNormally
  | loggedLxmlWarning
  | raised (e : PyExn)
deriving DecidableEq

/-- Observable result of one run of `XMLParser.keep_parsing`: how it
terminated and the elements it put on the two output queues. -/
structure KeepParsingRun where
  outcome : KPOutcome
  xml_to_machine : List Elem
  xml_to_forwarder : List Elem
deriving DecidableEq

/-- Embeds `XMLParser.keep_parsing` (xmlparser.py 74-101).  Source line
83 reads `stream_start, root_start_tag_name =
self._handle_root_start_tag()` with no `await`: the right-hand side
evaluates to a coroutine object whose body never runs, and the tuple
unpacking raises `TypeError` before anything is read from the input
queue.  The surrounding `except etree.LxmlError` clause does not catch
`TypeError`, so `keep_parsing` raises on every input, having put
nothing on either output queue. -/
def keep_parsing (_inputs : List InItem) : KeepParsingRun :=
  match unpackPair
      (PyCoroutineObject.coroutineObject :
        PyCoroutineObject (String × Option String)) with
  | .error e => ⟨KPOutcome.raised e, [], []⟩
  | .ok _ =>
      -- Unreachable: unpacking a coroutine object always raises.
      ⟨KPOutcome.returnedNormally, [], []⟩

/-! ## roimachine.py -/

/-- The states of `ROIMachine._ROI_STATE_SPACE` (roimachine.py 31-119). -/
inductive RState where
  | ready_to_start
  | own_root_tag
  | remote_root_tag
  | subscription_choice
  | resuming_attempt
  | subscribing_attempt
  | resuming_response
  | subscribing_response
  | last_processed
  | listening
  | closing
  | closed
deriving DecidableEq

/-- The events of `ROIMachine._ROI_STATE_SPACE`. -/
inductive REvent where
  | start
  | sent_own_root_start_tag
  | got_remote_root_start_tag
  | got_unexpected_element
  | got_poison_pill
  | chose_to_resume
  | chose_to_subscribe
  | sent_resuming_element
  | sent_subscribing_element
  | got_last_processed_request
  | got_resuming_ok
  | got_too_old_but_perhaps_resuming_ok
  | got_resuming_failed
  | got_subscribing_ok
  | got_subscribing_failed
  | sent_lp_response_return_listening
  | sent_lp_response_return_subscribing
  | sent_lp_response_return_resuming
  | got_remote_root_end_tag
  | got_other_element
  | sent_own_root_end_tag
deriving DecidableEq

/-- `ROIMachine._ROI_STATE_SPACE` as a transition function.  `none`
means the event is not declared for the state; the automaton library's
`FiniteMachine.process_event` raises `NotFound` there instead of
transitioning. -/
def roiTransition : RState → REvent → Option RState
  | .ready_to_start, .start => some .own_root_tag
  | .own_root_tag, .sent_own_root_start_tag => some .remote_root_tag
  | .remote_root_tag, .got_remote_root_start_tag => some .subscription_choice
  | .remote_root_tag, .got_unexpected_element => some .closing
  | .remote_root_tag, .got_poison_pill => some .closing
  | .subscription_choice, .chose_to_resume => some .resuming_attempt
  | .subscription_choice, .chose_to_subscribe => some .subscribing_attempt
  | .resuming_attempt, .sent_resuming_element => some .resuming_response
  | .subscribing_attempt, .sent_subscribing_element =>
      some .subscribing_response
  | .resuming_response, .got_last_processed_request => some .last_processed
  | .resuming_response, .got_resuming_ok => some .listening
  | .resuming_response, .got_too_old_but_perhaps_resuming_ok =>
      some .resuming_response
  | .resuming_response, .got_resuming_failed => some .closing
  | .resuming_response, .got_unexpected_element => some .closing
  | .resuming_response, .got_poison_pill => some .closing
  | .subscribing_response, .got_last_processed_request => some .last_processed
  | .subscribing_response, .got_subscribing_ok => some .listening
  | .subscribing_response, .got_subscribing_failed => some .closing
  | .subscribing_response, .got_unexpected_element => some .closing
  | .subscribing_response, .got_poison_pill => some .closing
  | .last_processed, .sent_lp_response_return_listening => some .listening
  | .last_processed, .sent_lp_response_return_subscribing =>
      some .subscribing_response
  | .last_processed, .sent_lp_response_return_resuming =>
      some .resuming_response
  | .listening, .got_last_processed_request => some .last_processed
  | .listening, .got_remote_root_end_tag => some .closing
  | .listening, .got_other_element => some .listening
  | .listening, .got_poison_pill => some .closing
  | .closing, .sent_own_root_end_tag => some .closed
  | _, _ => none

/-- A message formed by `Messenger` (messenger.py 49-71), identified by
the sending method; `send_last_processed` records its two arguments. -/
inductive Msg where
  | send_own_root_start_tag
  | send_own_root_end_tag
  | send_resume_subscription
  | send_subscribe
  | send_last_processed (on_message_id : Option String)
      (last_processed_message_id : Option String)
deriving DecidableEq

/-- The mutable fields of `ROIMachine` that the reactions read and
write (roimachine.py 125-126). -/
structure MState where
  should_resume : Bool
  on_message_id : Option String
deriving DecidableEq

/-- An item on the queue from `XMLParser` to `ROIMachine`: an element
or the `POISON_PILL` sentinel. -/
inductive XItem where
  | POISON_PILL
  | elem (e : Elem)
deriving DecidableEq

/-- What one `_react_in_*` reaction does: the messages it sends through
the `Messenger`, the event it returns, and the updated machine
fields. -/
structure Reaction where
  sends : List Msg
  event : REvent
  state : MState
deriving DecidableEq

/-- `ROIMachine._react_in_own_root_tag` (roimachine.py 134-137). -/
def react_in_own_root_tag (ms : MState) : Reaction :=
  ⟨[Msg.send_own_root_start_tag], REvent.sent_own_root_start_tag, ms⟩

/-- `ROIMachine._react_in_remote_root_tag` (roimachine.py 139-149). -/
def react_in_remote_root_tag (ms : MState) (received : XItem) : Reaction :=
  match received with
  | .POISON_PILL => ⟨[], REvent.got_poison_pill, ms⟩
  | .elem e =>
      if e.tag = ROI_ROOT_NAME then
        ⟨[], REvent.got_remote_root_start_tag, ms⟩
      else
        ⟨[], REvent.got_unexpected_element, ms⟩

/-- `ROIMachine._react_in_subscription_choice` (roimachine.py 151-156). -/
def react_in_subscription_choice (ms : MState) : Reaction :=
  if ms.should_resume then
    ⟨[], REvent.chose_to_resume, ms⟩
  else
    ⟨[], REvent.chose_to_subscribe, ms⟩

/-- `ROIMachine._react_in_resuming_attempt` (roimachine.py 158-161). -/
def react_in_resuming_attempt (ms : MState) : Reaction :=
  ⟨[Msg.send_resume_subscription], REvent.sent_resuming_element, ms⟩

/-- `ROIMachine._react_in_subscribing_attempt` (roimachine.py 163-166).
The source sends the subscribe element and then returns the event
string `sent_resuming_element` (line 166), not
`sent_subscribing_element`. -/
def react_in_subscribing_attempt (ms : MState) : Reaction :=
  ⟨[Msg.send_subscribe], REvent.sent_resuming_element, ms⟩

/-- `ROIMachine._react_in_resuming_response` (roimachine.py 171-200). -/
def react_in_resuming_response (ms : MState) (received : XItem) : Reaction :=
  match received with
  | .POISON_PILL => ⟨[], REvent.got_poison_pill, ms⟩
  | .elem e =>
      if e.tag = ROI_SUBSCRIPTION_RESUME_RESPONSE_NAME then
        ⟨[], REvent.got_resuming_ok, ms⟩
      else if e.tag = ROI_LAST_PROCESSED_NAME then
        ⟨[], REvent.got_last_processed_request,
          { ms with on_message_id := e.get "MessageId" }⟩
      else if e.tag = ROI_SUBSCRIPTION_ERROR_REPORT_NAME then
        if e.get "Code" = some "122" then
          ⟨[], REvent.got_too_old_but_perhaps_resuming_ok, ms⟩
        else
          ⟨[], REvent.got_resuming_failed,
            { ms with should_resume := false }⟩
      else if e.tag = ROI_SUBSCRIPTION_ERROR_RESPONSE_NAME then
        ⟨[], REvent.got_resuming_failed, { ms with should_resume := false }⟩
      else
        ⟨[], REvent.got_unexpected_element, ms⟩

/-- `ROIMachine._react_in_subscribing_response` (roimachine.py 202-224). -/
def react_in_subscribing_response (ms : MState) (received : XItem) :
    Reaction :=
  match received with
  | .POISON_PILL => ⟨[], REvent.got_poison_pill, ms⟩
  | .elem e =>
      if e.tag = ROI_SUBSCRIPTION_RESPONSE_NAME then
        ⟨[], REvent.got_subscribing_ok, { ms with should_resume := true }⟩
      else if e.tag = ROI_LAST_PROCESSED_NAME then
        ⟨[], REvent.got_last_processed_request,
          { ms with on_message_id := e.get "MessageId" }⟩
      else if e.tag = ROI_SUBSCRIPTION_ERROR_REPORT_NAME ∨
          e.tag = ROI_SUBSCRIPTION_ERROR_RESPONSE_NAME then
        ⟨[], REvent.got_subscribing_failed, { ms with should_resume := true }⟩
      else
        ⟨[], REvent.got_unexpected_element, { ms with should_resume := true }⟩

/-- `ROIMachine._react_in_last_processed` (roimachine.py 226-234). -/
def react_in_last_processed (old_state : RState) (ms : MState) : Reaction :=
  ⟨[Msg.send_last_processed ms.on_message_id ms.on_message_id],
    (if old_state = RState.listening then
      REvent.sent_lp_response_return_listening
    else if old_state = RState.resuming_response then
      REvent.sent_lp_response_return_resuming
    else
      REvent.sent_lp_response_return_subscribing),
    ms⟩

/-- `ROIMachine._react_in_listening` (roimachine.py 236-251). -/
def react_in_listening (ms : MState) (received : XItem) : Reaction :=
  match received with
  | .POISON_PILL => ⟨[], REvent.got_poison_pill, ms⟩
  | .elem e =>
      if e.tag = ROI_LAST_PROCESSED_NAME then
        ⟨[], REvent.got_last_processed_request,
          { ms with on_message_id := e.get "MessageId" }⟩
      else if e.tag = ROI_ROOT_NAME then
        ⟨[], REvent.got_remote_root_end_tag, ms⟩
      else
        ⟨[], REvent.got_other_element, ms⟩

/-- `ROIMachine._react_in_closing` (roimachine.py 253-255). -/
def react_in_closing (ms : MState) : Reaction :=
  ⟨[Msg.send_own_root_end_tag], REvent.sent_own_root_end_tag, ms⟩

/-! ## messenger.py and templater.py -/

/-- `next` on the generator made by `_create_message_id_generator`
(messenger.py 11-16): the generator keeps a counter starting at
`start`, yields it, then increments it. -/
def nextMessageId (counter : Nat) : Nat × Nat := (counter, counter + 1)

/-- One piece of a `string.Template`: literal text or a `$name`
placeholder. -/
inductive TemplatePart where
  | lit (s : String)
  | placeholder (name : String)
deriving DecidableEq

/-- `string.Template.substitute(mapping)`: replace each placeholder by
its value in the mapping; a placeholder absent from the mapping raises
`KeyError`. -/
def substitute (parts : List TemplatePart)
    (mapping : List (String × String)) : Except PyExn String :=
  match parts with
  | [] => .ok ""
  | TemplatePart.lit s :: rest => (substitute rest mapping).map (s ++ ·)
  | TemplatePart.placeholder n :: rest =>
      match mapping.lookup n with
      | none => .error PyExn.keyError
      | some v => (substitute rest mapping).map (v ++ ·)

/-- A `Templater` (templater.py 12-22): the parsed template file and
the `mapping` section of its configuration. -/
structure Templater where
  template : List TemplatePart
  mapping : List (String × String)
deriving DecidableEq

/-- `Templater.fill` (templater.py 24-41) over the shared generator
counter.  A `message_id` is drawn from the generator unconditionally —
whether or not the template mentions `$message_id` — and the merged
mapping is built as `{**self._mapping, **extra_mapping,
**message_id_mapping}`, a later entry overriding an earlier one; with
the association-list lookup used here the first entry wins, so the
merge is written in the reverse order. -/
def Templater.fill (t : Templater) (extra : List (String × String))
    (counter : Nat) : Except PyExn String × Nat :=
  let (message_id, counter') := nextMessageId counter
  let merged :=
    [("message_id", toString message_id)] ++ extra ++ t.mapping
  (substitute t.template merged, counter')

/-- The `message_id` values drawn by a sequence of `Templater.fill`
calls (any templaters, any extra mappings) threading the single shared
generator counter, as `Messenger` shares one generator among its five
templaters (messenger.py 29-41). -/
def fillRunIds :
    List (Templater × List (String × String)) → Nat → List Nat
  | [], _ => []
  | (t, extra) :: rest, counter =>
      counter :: fillRunIds rest (t.fill extra counter).2

/-! ## mqttforwarder.py -/

/-- The whitespace bytes stripped by Python's `bytes.rstrip()`:
space, `\t`, `\n`, `\r`, `\x0b`, `\x0c`. -/
def isPyWhitespace (c : Char) : Bool :=
  c = ' ' ∨ c = '\t' ∨ c = '\n' ∨ c = '\r' ∨
    c = Char.ofNat 11 ∨ c = Char.ofNat 12

/-- Python `bytes.rstrip()`: drop trailing whitespace bytes. -/
def pyRstrip (s : List Char) : List Char :=
  (s.reverse.dropWhile isPyWhitespace).reverse

/-- The `END_TAG` constant of `_serialize` (mqttforwarder.py 16): the
root end tag with the fixed namespace prefix `ROI:`. -/
def END_TAG : List Char := "</ROI:FromPubTransMessages>".data

/-- `_serialize` (mqttforwarder.py 15-26).  `tostring` stands for the
bytes `etree.tostring(element, encoding='utf-8')` produces for the
element.  With `is_root_tag=True` the bytes are right-stripped and, if
they end with the literal `END_TAG` bytes, that suffix is cut off
(`out[:-len(END_TAG)]`); otherwise the bytes pass through unchanged. -/
def serialize (tostring : List Char) (is_root_tag : Bool) : List Char :=
  if is_root_tag then
    let out := pyRstrip tostring
    if END_TAG.isSuffixOf out then
      out.take (out.length - END_TAG.length)
    else
      out
  else
    tostring

/-- The mutable field of `MQTTForwarder` read by the publishing loop
(mqttforwarder.py 56). -/
structure ForwarderState where
  is_root_start_tag_published : Bool
deriving DecidableEq

/-- `MQTTForwarder._check_root_start_tag` (mqttforwarder.py 91-106).
`message` is the probe result: `none` when no retained message was
retrieved, otherwise the start-element events lxml yields for the
payload.  Only the first event is examined (the loop body ends in
`break`); the flag is set only when its tag equals `ROI_ROOT_NAME`. -/
def check_root_start_tag (fs : ForwarderState)
    (message : Option (List Elem)) : ForwarderState :=
  match message with
  | none => fs
  | some startEvents =>
      match startEvents with
      | [] => fs
      | e :: _ =>
          if e.tag = ROI_ROOT_NAME then
            { is_root_start_tag_published := true }
          else
            fs

/-! ## mqttretainedretriever.py -/

/-- An MQTT message as seen by `on_message`: topic, retain flag, QoS
and payload. -/
structure MqttMessage where
  topic : String
  retain : Bool
  qos : Nat
  payload : String
deriving DecidableEq

/-- The mutable fields of `MQTTRetainedRetriever` that
`_cb_on_message` reads and writes (mqttretainedretriever.py 27-28).
`run` returns `retained_message` once retrieval is done. -/
structure RetrieverState where
  retained_message : Option String
  is_message_handled : Bool
deriving DecidableEq

/-- Client calls issued by `_cb_on_message`. -/
inductive RetrieverAction where
  | cancel_timer
  | unsubscribe
deriving DecidableEq

/-- `MQTTRetainedRetriever._cb_on_message` (mqttretainedretriever.py
84-94).  Any delivered message cancels the pending unsubscribe timer
(when one exists), marks the message handled and unsubscribes — ending
the probe; the payload is kept only when the message arrived on the
configured topic with the retain flag set. -/
def cb_on_message (config_topic : String) (timer_set : Bool)
    (st : RetrieverState) (m : MqttMessage) :
    RetrieverState × List RetrieverAction :=
  let actions :=
    (if timer_set then [RetrieverAction.cancel_timer] else []) ++
      [RetrieverAction.unsubscribe]
  let retained :=
    if m.topic = config_topic ∧ m.retain = true then some m.payload
    else st.retained_message
  (⟨retained, true⟩, actions)

/-! ## roimanager.py -/

/-- An item held by one of the four queues `ROIManager` wires up. -/
inductive QItem where
  | POISON_PILL
  | bytes (b : String)
  | xml (e : Elem)
deriving DecidableEq

/-- `_empty_queue` / `_empty_asyncio_queue` (roimanager.py 48-57):
`while not queue_.empty(): queue_.get()`. -/
def empty_queue : List QItem → List QItem
  | [] => []
  | _ :: rest => empty_queue rest

/-- The steps `ROIManager._clean_up` performs, in program order. -/
inductive CleanUpAction where
  | cancel_mqtt_disconnects_fut
  | await_mqtt_disconnects_fut
  | cancel_reading_fut
  | await_reading_fut
  | put_pill_bytes_in
  | await_parsing_fut
  | put_pill_xml_in
  | await_roi_machine_fut
  | put_pill_bytes_out
  | await_writing_fut
  | empty_bytes_in
  | empty_xml_in
  | empty_bytes_out
  | close_writer
deriving DecidableEq

/-- The mutable state of `ROIManager` that `_clean_up` touches: which
futures and the writer are present (`is not None`), and the contents
of the four queues (roimanager.py 78-95). -/
structure ManagerState where
  mqtt_disconnects_fut : Bool
  reading_fut : Bool
  parsing_fut : Bool
  roi_machine_fut : Bool
  writing_fut : Bool
  bytes_in_queue : List QItem
  xml_in_queue : List QItem
  bytes_out_queue : List QItem
  xml_forward_queue : List QItem
  writer : Bool
deriving DecidableEq

/-- `ROIManager._clean_up` (roimanager.py 130-168): cancel and await
the MQTT-disconnect watch, cancel and await the reader, put
`POISON_PILL` on `bytes_in` and await the parser, put `POISON_PILL` on
`xml_in` and await the state machine, put `POISON_PILL` on `bytes_out`
and await the writer, drain the three queues, close the writer.  Each
`cancel`/`await` pair runs only when the future `is not None`; the
sentinel puts are unconditional; `xml_forward_queue` is never
touched.  The child coroutines may consume queue items (the sentinels
included) before being awaited; the drains leave the three queues
empty either way, so the queues are modelled as holding at most what
`_clean_up` itself put there. -/
def clean_up (s : ManagerState) : ManagerState × List CleanUpAction :=
  let a1 :=
    if s.mqtt_disconnects_fut then
      [CleanUpAction.cancel_mqtt_disconnects_fut,
        CleanUpAction.await_mqtt_disconnects_fut]
    else []
  let a2 :=
    if s.reading_fut then
      [CleanUpAction.cancel_reading_fut, CleanUpAction.await_reading_fut]
    else []
  let a3 := [CleanUpAction.put_pill_bytes_in] ++
    (if s.parsing_fut then [CleanUpAction.await_parsing_fut] else [])
  let a4 := [CleanUpAction.put_pill_xml_in] ++
    (if s.roi_machine_fut then [CleanUpAction.await_roi_machine_fut] else [])
  let a5 := [CleanUpAction.put_pill_bytes_out] ++
    (if s.writing_fut then [CleanUpAction.await_writing_fut] else [])
  let a6 := [CleanUpAction.empty_bytes_in, CleanUpAction.empty_xml_in,
    CleanUpAction.empty_bytes_out]
  let a7 := if s.writer then [CleanUpAction.close_writer] else []
  (⟨false, false, false, false, false,
    empty_queue (s.bytes_in_queue ++ [QItem.POISON_PILL]),
    empty_queue (s.xml_in_queue ++ [QItem.POISON_PILL]),
    empty_queue (s.bytes_out_queue ++ [QItem.POISON_PILL]),
    s.xml_forward_queue, false⟩,
    a1 ++ a2 ++ a3 ++ a4 ++ a5 ++ a6 ++ a7)

/-! ## Theorems -/

/-- Claim C1: the claim says every direct child of the root (and the
root start element) reaches both output queues exactly once; in the
code `keep_parsing` raises `TypeError` on every input — line 83 tuple
unpacks the un-awaited coroutine returned by
`_handle_root_start_tag()`, and `_copy_into_queues` (lines 71, 93) is
likewise never awaited — so no element is ever put on either queue. -/
theorem keep_parsing_raises_and_emits_nothing (inputs : List InItem) :
    keep_parsing inputs =
      ⟨KPOutcome.raised PyExn.typeError, [], []⟩ := rfl

/-- Claim C3: the claim says `keep_parsing` returns normally when the
first dequeued item is the poison pill; in the code the `TypeError`
from unpacking the un-awaited `_handle_root_start_tag()` coroutine is
raised before the queue is ever read, so the sentinel-first run raises
instead of returning normally. -/
theorem keep_parsing_pill_first_raises :
    keep_parsing [InItem.POISON_PILL] =
      ⟨KPOutcome.raised PyExn.typeError, [], []⟩ := rfl

/-- Claim C2: the claim says the `subscribing_attempt` reaction sends
the subscribe element and returns an event that is a valid transition
to `subscribing_response`; the code sends the subscribe element but
returns `sent_resuming_element` (roimachine.py 166), which
`_ROI_STATE_SPACE` does not declare for `subscribing_attempt` (only
`sent_subscribing_element` is declared, leading to
`subscribing_response`), so the automaton raises `NotFound` instead of
transitioning. -/
theorem subscribing_attempt_event_invalid (ms : MState) :
    react_in_subscribing_attempt ms =
        ⟨[Msg.send_subscribe], REvent.sent_resuming_element, ms⟩ ∧
      roiTransition RState.subscribing_attempt
        (react_in_subscribing_attempt ms).event = none ∧
      roiTransition RState.subscribing_attempt
          REvent.sent_subscribing_element =
        some RState.subscribing_response :=
  ⟨rfl, rfl, rfl⟩

/-- Claim C4 counterexample: a first start element tagged `Wrong` is
not treated as a parse error: `_handle_root_start_tag` returns it as
the root start tag and the decoder continues with `Wrong` as the root
tag name. -/
theorem root_start_tag_wrong_tag_accepted :
    handle_root_start_tag [InItem.chunk "<Wrong>" [⟨"Wrong", []⟩]] "" =
      some (RootStartResult.gotRoot ("" ++ "<Wrong>") "Wrong") := rfl

/-- Claim C4 (amended): the decoder does not compare the first
start-element tag against `ROI_ROOT_NAME` at all; it records whatever
tag arrives as the root tag name and continues.  The equality check
is performed downstream by the ROI state machine: in
`remote_root_tag`, an element whose tag differs from `ROI_ROOT_NAME`
yields `got_unexpected_element`, which transitions to `closing`. -/
theorem root_start_tag_check_deferred (bytes : String) (e : Elem)
    (es : List Elem) (rest : List InItem) (acc : String) (ms : MState)
    (h : e.tag ≠ ROI_ROOT_NAME) :
    handle_root_start_tag (InItem.chunk bytes (e :: es) :: rest) acc =
        some (RootStartResult.gotRoot (acc ++ bytes) e.tag) ∧
      react_in_remote_root_tag ms (XItem.elem e) =
        ⟨[], REvent.got_unexpected_element, ms⟩ ∧
      roiTransition RState.remote_root_tag REvent.got_unexpected_element =
        some RState.closing := by
  refine ⟨rfl, ?_, rfl⟩
  simp [react_in_remote_root_tag, h]

/-- Witness for `root_start_tag_check_deferred` at a concrete input. -/
theorem root_start_tag_check_deferred_witness :
    handle_root_start_tag [InItem.chunk "<Wrong/>" [⟨"Wrong", []⟩]] "" =
        some (RootStartResult.gotRoot ("" ++ "<Wrong/>") "Wrong") ∧
      react_in_remote_root_tag ⟨true, none⟩ (XItem.elem ⟨"Wrong", []⟩) =
        ⟨[], REvent.got_unexpected_element, ⟨true, none⟩⟩ ∧
      roiTransition RState.remote_root_tag REvent.got_unexpected_element =
        some RState.closing :=
  root_start_tag_check_deferred "<Wrong/>" ⟨"Wrong", []⟩ [] [] ""
    ⟨true, none⟩ (by decide)

/-- Claim C6: in `resuming_response`, a `SubscriptionErrorReport` with
`Code="122"` yields `got_too_old_but_perhaps_resuming_ok`, which loops
back to `resuming_response` with the machine fields (including
`should_resume`) unchanged; a `SubscriptionErrorReport` with any other
`Code` (or no `Code`), and a `SubscriptionErrorResponse`, set
`should_resume := false` and yield `got_resuming_failed`, which
transitions to `closing`; with `should_resume` false the next
`subscription_choice` chooses `chose_to_subscribe`, leading to
`subscribing_attempt` (a fresh subscribe). -/
theorem resuming_response_error_handling (ms : MState) (er ee : Elem)
    (hr : er.tag = ROI_SUBSCRIPTION_ERROR_REPORT_NAME)
    (he : ee.tag = ROI_SUBSCRIPTION_ERROR_RESPONSE_NAME) :
    (er.get "Code" = some "122" →
        react_in_resuming_response ms (XItem.elem er) =
          ⟨[], REvent.got_too_old_but_perhaps_resuming_ok, ms⟩) ∧
      (er.get "Code" ≠ some "122" →
        react_in_resuming_response ms (XItem.elem er) =
          ⟨[], REvent.got_resuming_failed, ⟨false, ms.on_message_id⟩⟩) ∧
      react_in_resuming_response ms (XItem.elem ee) =
        ⟨[], REvent.got_resuming_failed, ⟨false, ms.on_message_id⟩⟩ ∧
      roiTransition RState.resuming_response
          REvent.got_too_old_but_perhaps_resuming_ok =
        some RState.resuming_response ∧
      roiTransition RState.resuming_response REvent.got_resuming_failed =
        some RState.closing ∧
      react_in_subscription_choice ⟨false, ms.on_message_id⟩ =
        ⟨[], REvent.chose_to_subscribe, ⟨false, ms.on_message_id⟩⟩ ∧
      roiTransition RState.subscription_choice REvent.chose_to_subscribe =
        some RState.subscribing_attempt := by
  refine ⟨?_, ?_, ?_, rfl, rfl, rfl, rfl⟩
  · intro h122
    simp [react_in_resuming_response, hr, h122,
      ROI_SUBSCRIPTION_ERROR_REPORT_NAME,
      ROI_SUBSCRIPTION_RESUME_RESPONSE_NAME, ROI_LAST_PROCESSED_NAME]
  · intro h122
    simp [react_in_resuming_response, hr, h122,
      ROI_SUBSCRIPTION_ERROR_REPORT_NAME,
      ROI_SUBSCRIPTION_RESUME_RESPONSE_NAME, ROI_LAST_PROCESSED_NAME]
  · simp [react_in_resuming_response, he,
      ROI_SUBSCRIPTION_ERROR_RESPONSE_NAME,
      ROI_SUBSCRIPTION_ERROR_REPORT_NAME,
      ROI_SUBSCRIPTION_RESUME_RESPONSE_NAME, ROI_LAST_PROCESSED_NAME]

/-- Witness for `resuming_response_error_handling` at concrete
inputs: the `Code="122"` report loops, the `Code="108"` report fails
the resume. -/
theorem resuming_response_error_handling_witness :
    react_in_resuming_response ⟨true, none⟩
        (XItem.elem ⟨ROI_SUBSCRIPTION_ERROR_REPORT_NAME,
          [("Code", "122")]⟩) =
      ⟨[], REvent.got_too_old_but_perhaps_resuming_ok, ⟨true, none⟩⟩ ∧
    react_in_resuming_response ⟨true, none⟩
        (XItem.elem ⟨ROI_SUBSCRIPTION_ERROR_REPORT_NAME,
          [("Code", "108")]⟩) =
      ⟨[], REvent.got_resuming_failed, ⟨false, none⟩⟩ ∧
    react_in_resuming_response ⟨true, none⟩
        (XItem.elem ⟨ROI_SUBSCRIPTION_ERROR_RESPONSE_NAME, []⟩) =
      ⟨[], REvent.got_resuming_failed, ⟨false, none⟩⟩ :=
  ⟨(resuming_response_error_handling ⟨true, none⟩
      ⟨ROI_SUBSCRIPTION_ERROR_REPORT_NAME, [("Code", "122")]⟩
      ⟨ROI_SUBSCRIPTION_ERROR_RESPONSE_NAME, []⟩ rfl rfl).1 (by decide),
    (resuming_response_error_handling ⟨true, none⟩
      ⟨ROI_SUBSCRIPTION_ERROR_REPORT_NAME, [("Code", "108")]⟩
      ⟨ROI_SUBSCRIPTION_ERROR_RESPONSE_NAME, []⟩ rfl rfl).2.1 (by decide),
    (resuming_response_error_handling ⟨true, none⟩
      ⟨ROI_SUBSCRIPTION_ERROR_REPORT_NAME, [("Code", "122")]⟩
      ⟨ROI_SUBSCRIPTION_ERROR_RESPONSE_NAME, []⟩ rfl rfl).2.2.1⟩

/-- Claim C7: in `listening`, a `LastProcessedMessageRequest` with
`MessageId` `m` stores `m` into `on_message_id` and yields
`got_last_processed_request`, transitioning to `last_processed`; the
`last_processed` reaction (entered from `listening`) sends
`send_last_processed(m, m)` and yields
`sent_lp_response_return_listening`, transitioning back to
`listening`. -/
theorem listening_last_processed_echo (ms : MState) (e : Elem) (m : String)
    (htag : e.tag = ROI_LAST_PROCESSED_NAME)
    (hm : e.get "MessageId" = some m) :
    react_in_listening ms (XItem.elem e) =
        ⟨[], REvent.got_last_processed_request,
          ⟨ms.should_resume, some m⟩⟩ ∧
      roiTransition RState.listening REvent.got_last_processed_request =
        some RState.last_processed ∧
      react_in_last_processed RState.listening ⟨ms.should_resume, some m⟩ =
        ⟨[Msg.send_last_processed (some m) (some m)],
          REvent.sent_lp_response_return_listening,
          ⟨ms.should_resume, some m⟩⟩ ∧
      roiTransition RState.last_processed
          REvent.sent_lp_response_return_listening =
        some RState.listening := by
  refine ⟨?_, rfl, rfl, rfl⟩
  simp [react_in_listening, htag, hm]

/-- Witness for `listening_last_processed_echo` at the spec's example
request `<LastProcessedMessageRequest MessageId="abc"/>`. -/
theorem listening_last_processed_echo_witness :
    react_in_listening ⟨true, none⟩
        (XItem.elem ⟨ROI_LAST_PROCESSED_NAME, [("MessageId", "abc")]⟩) =
        ⟨[], REvent.got_last_processed_request, ⟨true, some "abc"⟩⟩ ∧
      roiTransition RState.listening REvent.got_last_processed_request =
        some RState.last_processed ∧
      react_in_last_processed RState.listening ⟨true, some "abc"⟩ =
        ⟨[Msg.send_last_processed (some "abc") (some "abc")],
          REvent.sent_lp_response_return_listening, ⟨true, some "abc"⟩⟩ ∧
      roiTransition RState.last_processed
          REvent.sent_lp_response_return_listening =
        some RState.listening :=
  listening_last_processed_echo ⟨true, none⟩
    ⟨ROI_LAST_PROCESSED_NAME, [("MessageId", "abc")]⟩ "abc" rfl (by decide)

/-- A possible `etree.tostring` serialization of the root element in
which the document maps the ROI namespace to the prefix `r` instead of
`ROI`. -/
def altNsSerialization : List Char :=
  ("<r:FromPubTransMessages xmlns:r=\"http://www.pubtrans.com/ROI/3.0\">" ++
    "</r:FromPubTransMessages>").data

/-- Claim C5 counterexample: when the serialization uses the namespace
prefix `r`, the root-tag publish path of `_serialize` leaves the
serialization unchanged, so the published payload still ends with the
root end tag `</r:FromPubTransMessages>` — the strip only matches the
fixed prefix `ROI:`, not any namespace prefix. -/
theorem serialize_keeps_end_tag_other_ns :
    (("</r:FromPubTransMessages>").data).isSuffixOf
        (serialize altNsSerialization true) = true ∧
      serialize altNsSerialization true = altNsSerialization := by
  constructor <;> decide

/-- Claim C5 (amended): with `is_root_tag=True`, `_serialize`
right-strips the bytes and removes one trailing
`</ROI:FromPubTransMessages>` exactly when the stripped bytes end with
that literal; a serialization using any other namespace prefix for the
end tag is returned without the strip, end tag included.  With
`is_root_tag=False` the bytes pass through unchanged. -/
theorem serialize_root_end_tag_strip (tostring : List Char) :
    (END_TAG.isSuffixOf (pyRstrip tostring) = true →
        serialize tostring true ++ END_TAG = pyRstrip tostring) ∧
      (END_TAG.isSuffixOf (pyRstrip tostring) = false →
        serialize tostring true = pyRstrip tostring) ∧
      serialize tostring false = tostring := by
  refine ⟨?_, ?_, rfl⟩
  · intro h
    obtain ⟨pre, hpre⟩ := List.isSuffixOf_iff_suffix.mp h
    simp only [serialize, h, if_true, if_pos]
    rw [← hpre, List.length_append, Nat.add_sub_cancel, List.take_left]
  · intro h
    simp [serialize, h]

/-- Witness for `serialize_root_end_tag_strip`: a root serialization
with the `ROI:` prefix and a trailing newline has the newline and the
end tag stripped. -/
theorem serialize_root_end_tag_strip_witness :
    serialize ("<ROI:FromPubTransMessages></ROI:FromPubTransMessages>\n").data
        true ++ END_TAG =
      pyRstrip ("<ROI:FromPubTransMessages></ROI:FromPubTransMessages>\n").data :=
  (serialize_root_end_tag_strip
    ("<ROI:FromPubTransMessages></ROI:FromPubTransMessages>\n").data).1
    (by decide)

/-- Claim C8: every `Templater.fill` call advances the shared generator
counter by exactly one (whatever the template and extra mapping, so
also when the template has no `message_id` placeholder); hence the
`message_id` values drawn by any sequence of fills starting at counter
`c` are `c, c+1, …` — strictly increasing and pairwise distinct — and
the value injected for the `message_id` placeholder is the drawn
counter value, which an extra mapping cannot override. -/
theorem fill_message_ids_distinct :
    (∀ (t : Templater) (extra : List (String × String)) (c : Nat),
        (t.fill extra c).2 = c + 1) ∧
      (∀ (calls : List (Templater × List (String × String))) (c : Nat),
        fillRunIds calls c = List.range' c calls.length) ∧
      (∀ (calls : List (Templater × List (String × String))) (c : Nat),
        (fillRunIds calls c).Pairwise (· < ·)) ∧
      (∀ (calls : List (Templater × List (String × String))) (c : Nat),
        (fillRunIds calls c).Nodup) ∧
      (∀ (base extra : List (String × String)) (c : Nat),
        (Templater.mk [TemplatePart.placeholder "message_id"] base).fill
            extra c =
          (Except.ok (toString c), c + 1)) := by
  have hrange : ∀ (calls : List (Templater × List (String × String)))
      (c : Nat), fillRunIds calls c = List.range' c calls.length := by
    intro calls
    induction calls with
    | nil => intro c; rfl
    | cons hd tl ih =>
        intro c
        simp [fillRunIds, ih, List.range'_succ, Templater.fill, nextMessageId]
  refine ⟨fun _ _ _ => rfl, hrange, ?_, ?_, ?_⟩
  · intro calls c
    rw [hrange]
    exact List.pairwise_lt_range' c calls.length
  · intro calls c
    rw [hrange]
    exact List.nodup_range' ..
  · intro base extra c
    simp [Templater.fill, nextMessageId, substitute, List.lookup,
      Except.map, String.append_empty]

/-- Claim C9: when all five futures and the writer are present, a
completed `_clean_up` leaves `bytes_in`, `xml_in` and `bytes_out`
empty, closes the writer, leaves `xml_forward_queue` exactly as it
was (no drain, no sentinel), and performs its steps in the order:
cancel and await the MQTT-disconnect watch, cancel and await the
reader, sentinel then await the parser, sentinel then await the state
machine, sentinel then await the writer, drain the three queues,
close the writer. -/
theorem clean_up_teardown (s : ManagerState)
    (hm : s.mqtt_disconnects_fut = true) (hr : s.reading_fut = true)
    (hp : s.parsing_fut = true) (hq : s.roi_machine_fut = true)
    (hw : s.writing_fut = true) (hwr : s.writer = true) :
    (clean_up s).1.bytes_in_queue = [] ∧
      (clean_up s).1.xml_in_queue = [] ∧
      (clean_up s).1.bytes_out_queue = [] ∧
      (clean_up s).1.xml_forward_queue = s.xml_forward_queue ∧
      (clean_up s).1.writer = false ∧
      (clean_up s).2 =
        [CleanUpAction.cancel_mqtt_disconnects_fut,
          CleanUpAction.await_mqtt_disconnects_fut,
          CleanUpAction.cancel_reading_fut,
          CleanUpAction.await_reading_fut,
          CleanUpAction.put_pill_bytes_in,
          CleanUpAction.await_parsing_fut,
          CleanUpAction.put_pill_xml_in,
          CleanUpAction.await_roi_machine_fut,
          CleanUpAction.put_pill_bytes_out,
          CleanUpAction.await_writing_fut,
          CleanUpAction.empty_bytes_in,
          CleanUpAction.empty_xml_in,
          CleanUpAction.empty_bytes_out,
          CleanUpAction.close_writer] := by
  have he : ∀ q, empty_queue q = [] := by
    intro q
    induction q with
    | nil => rfl
    | cons _ rest ih => simpa [empty_queue] using ih
  simp [clean_up, hm, hr, hp, hq, hw, hwr, he]

/-- Witness for `clean_up_teardown` at a concrete manager state with
all futures present and non-empty queues. -/
theorem clean_up_teardown_witness :
    (clean_up ⟨true, true, true, true, true, [QItem.bytes "a"],
          [QItem.xml ⟨"T", []⟩], [QItem.bytes "b"],
          [QItem.xml ⟨"U", []⟩], true⟩).1.bytes_in_queue = [] ∧
      (clean_up ⟨true, true, true, true, true, [QItem.bytes "a"],
          [QItem.xml ⟨"T", []⟩], [QItem.bytes "b"],
          [QItem.xml ⟨"U", []⟩], true⟩).1.xml_in_queue = [] ∧
      (clean_up ⟨true, true, true, true, true, [QItem.bytes "a"],
          [QItem.xml ⟨"T", []⟩], [QItem.bytes "b"],
          [QItem.xml ⟨"U", []⟩], true⟩).1.bytes_out_queue = [] ∧
      (clean_up ⟨true, true, true, true, true, [QItem.bytes "a"],
          [QItem.xml ⟨"T", []⟩], [QItem.bytes "b"],
          [QItem.xml ⟨"U", []⟩], true⟩).1.xml_forward_queue =
        [QItem.xml ⟨"U", []⟩] ∧
      (clean_up ⟨true, true, true, true, true, [QItem.bytes "a"],
          [QItem.xml ⟨"T", []⟩], [QItem.bytes "b"],
          [QItem.xml ⟨"U", []⟩], true⟩).1.writer = false ∧
      (clean_up ⟨true, true, true, true, true, [QItem.bytes "a"],
          [QItem.xml ⟨"T", []⟩], [QItem.bytes "b"],
          [QItem.xml ⟨"U", []⟩], true⟩).2 =
        [CleanUpAction.cancel_mqtt_disconnects_fut,
          CleanUpAction.await_mqtt_disconnects_fut,
          CleanUpAction.cancel_reading_fut,
          CleanUpAction.await_reading_fut,
          CleanUpAction.put_pill_bytes_in,
          CleanUpAction.await_parsing_fut,
          CleanUpAction.put_pill_xml_in,
          CleanUpAction.await_roi_machine_fut,
          CleanUpAction.put_pill_bytes_out,
          CleanUpAction.await_writing_fut,
          CleanUpAction.empty_bytes_in,
          CleanUpAction.empty_xml_in,
          CleanUpAction.empty_bytes_out,
          CleanUpAction.close_writer] :=
  clean_up_teardown ⟨true, true, true, true, true, [QItem.bytes "a"],
    [QItem.xml ⟨"T", []⟩], [QItem.bytes "b"], [QItem.xml ⟨"U", []⟩], true⟩
    rfl rfl rfl rfl rfl rfl

/-- Claim C10: any message delivered during the retained-message probe
marks the message handled and unsubscribes (ending the probe); a
message that is not retained or is on another topic leaves the probe
result `None`, and `_check_root_start_tag` on `None` leaves
`is_root_start_tag_published` false — the same "not published" path a
timeout takes; a non-`None` probe result can only come from a retained
message on the configured topic. -/
theorem retained_probe_message_handling (topic : String)
    (timer_set : Bool) (st : RetrieverState) (m : MqttMessage)
    (h0 : st.retained_message = none) :
    (¬(m.topic = topic ∧ m.retain = true) →
        (cb_on_message topic timer_set st m).1 = ⟨none, true⟩) ∧
      ((cb_on_message topic timer_set st m).1.retained_message ≠ none →
        m.topic = topic ∧ m.retain = true) ∧
      (cb_on_message topic timer_set st m).1.is_message_handled = true ∧
      RetrieverAction.unsubscribe ∈ (cb_on_message topic timer_set st m).2 ∧
      check_root_start_tag ⟨false⟩ none = ⟨false⟩ := by
  refine ⟨?_, ?_, rfl, ?_, rfl⟩
  · intro h
    simp [cb_on_message, h, h0]
  · intro h
    by_contra hc
    apply h
    simp [cb_on_message, hc, h0]
  · cases timer_set <;> simp [cb_on_message]

/-- Witness for `retained_probe_message_handling`: a non-retained
message on the configured topic ends the probe with result `None`. -/
theorem retained_probe_message_handling_witness :
    (cb_on_message "t" true ⟨none, false⟩ ⟨"t", false, 0, "p"⟩).1 =
      ⟨none, true⟩ :=
  (retained_probe_message_handling "t" true ⟨none, false⟩
    ⟨"t", false, 0, "p"⟩ rfl).1 (by decide)

end Roi
